import Mathlib

/-!
Verification of the business-card relay service.

The development shallowly embeds the two components of the repository:

* the server-side `/api/send` request handler of `src/server.js`
  (validation, message construction, one outbound call to the messaging
  API, and translation of its outcome into the HTTP response), and
* the client-side form controller (service collection, client validation,
  the POST to `/api/send`, and the UI state transitions around it).

Machine-visible effects (outbound calls, log lines, field mutations) are
made explicit in the result types so the theorems can speak about them.
-/

/-- JSON body received by `POST /api/send`; each destructured field may be
absent from the inbound JSON, hence the `Option`s. -/
structure ReqBody where
  name : Option String
  contact : Option String
  services : Option (List String)
deriving DecidableEq

/-- Outcome of the server's outbound `fetch` to the messaging API: a
response carrying its `ok` flag, or a rejected promise with a message. -/
inductive FetchOutcome where
  | response (ok : Bool)
  | networkError (msg : String)
deriving DecidableEq

/-- JSON body of the outbound POST to the messaging API. -/
structure OutboundCall where
  chat_id : String
  text : String
  parse_mode : String
deriving DecidableEq

/-- JSON body of the handler's HTTP response to the client. -/
inductive RespBody where
  | errorBody (error : String)
  | successBody (success : Bool)
deriving DecidableEq

/-- Observable result of handling one inbound request: HTTP status,
response body, outbound calls attempted, and server-side log lines. -/
structure HandlerResult where
  status : Nat
  body : RespBody
  outboundCalls : List OutboundCall
  logs : List String
deriving DecidableEq

/-- JS truthiness of the destructured string field (`!name`, `!contact` in
the handler): absent and empty strings are falsy, all others truthy. -/
def truthyStr : Option String → Bool
  | none => false
  | some s => if s = "" then false else true

/-- JS truthiness of `services?.length`: falsy when the array is absent or
empty, truthy otherwise. -/
def truthyLen : Option (List String) → Bool
  | none => false
  | some [] => false
  | some (_ :: _) => true

/-- The notification text built by the handler (local `text` in
`src/server.js`): fixed header lines followed by one bulleted line per
service, joined by newlines. -/
def relayText (name contact : String) (services : List String) : String :=
  String.intercalate "\n"
    (["📩 Новая заявка с сайта!",
      "",
      "👤 Имя: " ++ name,
      "📱 Контакт: " ++ contact,
      "",
      "🔧 Услуги:"] ++ services.map (fun s => "  • " ++ s))

/-- The `/api/send` handler of `src/server.js`, parameterised by the
configured channel identifier and by the outcome of the outbound call. -/
def handleSend (chatId : String) (body : ReqBody) (outcome : FetchOutcome) :
    HandlerResult :=
  if !truthyStr body.name || !truthyStr body.contact || !truthyLen body.services then
    { status := 400
      body := .errorBody "Заполни все поля и выбери хотя бы одну услугу"
      outboundCalls := []
      logs := [] }
  else
    let name := body.name.getD ""
    let contact := body.contact.getD ""
    let services := body.services.getD []
    let call : OutboundCall :=
      { chat_id := chatId, text := relayText name contact services
        parse_mode := "HTML" }
    match outcome with
    | .response true =>
        { status := 200, body := .successBody true
          outboundCalls := [call], logs := [] }
    | .response false =>
        { status := 500
          body := .errorBody "Не удалось отправить сообщение"
          outboundCalls := [call]
          logs := ["Ошибка отправки в Telegram: " ++ "Telegram API error"] }
    | .networkError msg =>
        { status := 500
          body := .errorBody "Не удалось отправить сообщение"
          outboundCalls := [call]
          logs := ["Ошибка отправки в Telegram: " ++ msg] }

/-- The upstream failure detail the handler observes: the error it throws
itself on a non-ok response, or the rejection message of the call. -/
def upstreamDetail : FetchOutcome → String
  | .response _ => "Telegram API error"
  | .networkError msg => msg

/-- Executable substring test: `strContains hay needle` holds when `needle`
occurs contiguously inside `hay`. -/
def strContains (hay needle : String) : Bool :=
  (List.range (hay.toList.length + 1)).any
    (fun i => needle.toList.isPrefixOf (hay.toList.drop i))

/-- A request body the server's validation rejects: `name` absent or
empty, or `contact` absent or empty, or `services` absent or empty. -/
def InvalidBody (b : ReqBody) : Prop :=
  b.name = none ∨ b.name = some "" ∨ b.contact = none ∨ b.contact = some "" ∨
    b.services = none ∨ b.services = some []

/-- A valid SubmissionRequest: non-empty name, non-empty contact, and a
non-empty services list. -/
def ValidRequest (b : ReqBody) : Prop :=
  (∃ n, b.name = some n ∧ n ≠ "") ∧ (∃ c, b.contact = some c ∧ c ≠ "") ∧
    (∃ l, b.services = some l ∧ l ≠ [])

theorem validation_passes {b : ReqBody} (h : ValidRequest b) :
    (!truthyStr b.name || !truthyStr b.contact || !truthyLen b.services) = false := by
  obtain ⟨⟨n, hn, hn0⟩, ⟨c, hc, hc0⟩, ⟨l, hl, hl0⟩⟩ := h
  rw [hn, hc, hl]
  cases l with
  | nil => exact absurd rfl hl0
  | cons a t => simp [truthyStr, truthyLen, hn0, hc0]

/-- C1: a request whose `name` is empty or absent, or `contact` empty or
absent, or `services` absent or empty, is answered with status 400 and a
non-empty error message, and no outbound call is made. -/
theorem C1_invalid_request_rejected (chatId : String) (b : ReqBody)
    (outcome : FetchOutcome) (h : InvalidBody b) :
    (handleSend chatId b outcome).status = 400 ∧
    (handleSend chatId b outcome).body =
      .errorBody "Заполни все поля и выбери хотя бы одну услугу" ∧
    "Заполни все поля и выбери хотя бы одну услугу" ≠ "" ∧
    (handleSend chatId b outcome).outboundCalls = [] := by
  have : (!truthyStr b.name || !truthyStr b.contact || !truthyLen b.services) = true := by
    rcases h with h | h | h | h | h | h <;> rw [h] <;> simp [truthyStr, truthyLen]
  refine ⟨?_, ?_, by decide, ?_⟩ <;> simp [handleSend, this]

theorem C1_witness :
    (handleSend "chat" ⟨none, some "ann@x.com", some ["Haircut"]⟩
        (.response true)).status = 400 ∧
    (handleSend "chat" ⟨none, some "ann@x.com", some ["Haircut"]⟩
        (.response true)).body =
      .errorBody "Заполни все поля и выбери хотя бы одну услугу" ∧
    "Заполни все поля и выбери хотя бы одну услугу" ≠ "" ∧
    (handleSend "chat" ⟨none, some "ann@x.com", some ["Haircut"]⟩
        (.response true)).outboundCalls = [] :=
  C1_invalid_request_rejected "chat" ⟨none, some "ann@x.com", some ["Haircut"]⟩
    (.response true) (Or.inl rfl)

theorem handleSend_valid_calls {b : ReqBody} (h : ValidRequest b)
    (chatId : String) (outcome : FetchOutcome) :
    (handleSend chatId b outcome).outboundCalls =
      [{ chat_id := chatId
         text := relayText (b.name.getD "") (b.contact.getD "") (b.services.getD [])
         parse_mode := "HTML" }] := by
  have hv := validation_passes h
  cases outcome with
  | response ok => cases ok <;> simp [handleSend, hv]
  | networkError m => simp [handleSend, hv]

/-- C2: for every valid request the outbound body is
`{chat_id, text, parse_mode := "HTML"}` with `text` the deterministic
relay message, and on the concrete input
`{name := "Ann", contact := "ann@x.com", services := ["Haircut"]}` that
text is byte-identical to the expected string. -/
theorem C2_outbound_body (chatId name contact : String) (svcs : List String)
    (hn : name ≠ "") (hc : contact ≠ "") (hs : svcs ≠ []) (outcome : FetchOutcome) :
    (handleSend chatId ⟨some name, some contact, some svcs⟩ outcome).outboundCalls =
      [{ chat_id := chatId, text := relayText name contact svcs
         parse_mode := "HTML" }] ∧
    relayText "Ann" "ann@x.com" ["Haircut"] =
      "📩 Новая заявка с сайта!\n\n👤 Имя: Ann\n📱 Контакт: ann@x.com\n\n🔧 Услуги:\n  • Haircut" := by
  constructor
  · exact handleSend_valid_calls
      ⟨⟨name, rfl, hn⟩, ⟨contact, rfl, hc⟩, ⟨svcs, rfl, hs⟩⟩ chatId outcome
  · rfl

theorem C2_witness :
    (handleSend "cfg" ⟨some "Ann", some "ann@x.com", some ["Haircut"]⟩
        (.response true)).outboundCalls =
      [{ chat_id := "cfg", text := relayText "Ann" "ann@x.com" ["Haircut"]
         parse_mode := "HTML" }] ∧
    relayText "Ann" "ann@x.com" ["Haircut"] =
      "📩 Новая заявка с сайта!\n\n👤 Имя: Ann\n📱 Контакт: ann@x.com\n\n🔧 Услуги:\n  • Haircut" :=
  C2_outbound_body "cfg" "Ann" "ann@x.com" ["Haircut"]
    (by decide) (by decide) (by decide) (.response true)

/-- C3: for every valid request, when the outbound response is ok the
handler answers 200 with `{success := true}` and attempts exactly one
outbound call. -/
theorem C3_success_path (chatId : String) (b : ReqBody) (h : ValidRequest b) :
    (handleSend chatId b (.response true)).status = 200 ∧
    (handleSend chatId b (.response true)).body = .successBody true ∧
    (handleSend chatId b (.response true)).outboundCalls.length = 1 := by
  have hv := validation_passes h
  refine ⟨?_, ?_, ?_⟩ <;> simp [handleSend, hv]

theorem C3_witness :
    (handleSend "cfg" ⟨some "Ann", some "ann@x.com", some ["Haircut"]⟩
        (.response true)).status = 200 ∧
    (handleSend "cfg" ⟨some "Ann", some "ann@x.com", some ["Haircut"]⟩
        (.response true)).body = .successBody true ∧
    (handleSend "cfg" ⟨some "Ann", some "ann@x.com", some ["Haircut"]⟩
        (.response true)).outboundCalls.length = 1 :=
  C3_success_path "cfg" ⟨some "Ann", some "ann@x.com", some ["Haircut"]⟩
    ⟨⟨"Ann", rfl, by decide⟩, ⟨"ann@x.com", rfl, by decide⟩,
     ⟨["Haircut"], rfl, by decide⟩⟩

/-- C4: for every valid request, when the outbound call fails (non-ok
response or network rejection) the handler logs the upstream detail,
answers 500 with the fixed generic error body — the same constant
whatever the upstream failure was — and that generic text does not
contain the upstream error text the handler itself raises. -/
theorem C4_upstream_failure (chatId : String) (b : ReqBody) (h : ValidRequest b)
    (outcome : FetchOutcome) (hfail : outcome ≠ .response true) :
    (handleSend chatId b outcome).status = 500 ∧
    (handleSend chatId b outcome).body =
      .errorBody "Не удалось отправить сообщение" ∧
    (handleSend chatId b outcome).logs =
      ["Ошибка отправки в Telegram: " ++ upstreamDetail outcome] ∧
    strContains "Не удалось отправить сообщение" "Telegram API error" = false := by
  have hv := validation_passes h
  cases outcome with
  | response ok =>
    cases ok with
    | false => refine ⟨?_, ?_, ?_, by decide⟩ <;> simp [handleSend, hv, upstreamDetail]
    | true => exact absurd rfl hfail
  | networkError m =>
    refine ⟨?_, ?_, ?_, by decide⟩ <;> simp [handleSend, hv, upstreamDetail]

theorem C4_witness :
    (handleSend "cfg" ⟨some "Ann", some "ann@x.com", some ["Haircut"]⟩
        (.response false)).status = 500 ∧
    (handleSend "cfg" ⟨some "Ann", some "ann@x.com", some ["Haircut"]⟩
        (.response false)).body = .errorBody "Не удалось отправить сообщение" ∧
    (handleSend "cfg" ⟨some "Ann", some "ann@x.com", some ["Haircut"]⟩
        (.response false)).logs =
      ["Ошибка отправки в Telegram: " ++ upstreamDetail (.response false)] ∧
    strContains "Не удалось отправить сообщение" "Telegram API error" = false :=
  C4_upstream_failure "cfg" ⟨some "Ann", some "ann@x.com", some ["Haircut"]⟩
    ⟨⟨"Ann", rfl, by decide⟩, ⟨"ann@x.com", rfl, by decide⟩,
     ⟨["Haircut"], rfl, by decide⟩⟩
    (.response false) (by decide)

/-- C10: any two invalid request bodies receive identical responses: the
400 answer is one fixed constant, so it does not reveal which field
failed validation. -/
theorem C10_uniform_validation_response (chatId : String) (b1 b2 : ReqBody)
    (o1 o2 : FetchOutcome) (h1 : InvalidBody b1) (h2 : InvalidBody b2) :
    handleSend chatId b1 o1 = handleSend chatId b2 o2 ∧
    (handleSend chatId b1 o1).status = 400 := by
  have g1 : (!truthyStr b1.name || !truthyStr b1.contact || !truthyLen b1.services) = true := by
    rcases h1 with h | h | h | h | h | h <;> rw [h] <;> simp [truthyStr, truthyLen]
  have g2 : (!truthyStr b2.name || !truthyStr b2.contact || !truthyLen b2.services) = true := by
    rcases h2 with h | h | h | h | h | h <;> rw [h] <;> simp [truthyStr, truthyLen]
  constructor <;> simp [handleSend, g1, g2]

theorem C10_witness :
    handleSend "cfg" ⟨none, some "c", some ["s"]⟩ (.response true) =
      handleSend "cfg" ⟨some "n", some "c", some []⟩ (.networkError "boom") ∧
    (handleSend "cfg" ⟨none, some "c", some ["s"]⟩ (.response true)).status = 400 :=
  C10_uniform_validation_response "cfg" ⟨none, some "c", some ["s"]⟩
    ⟨some "n", some "c", some []⟩ (.response true) (.networkError "boom")
    (Or.inl rfl) (Or.inr (Or.inr (Or.inr (Or.inr (Or.inr rfl)))))

/-- One service checkbox of the dropdown menu: its `value` and whether it
is currently checked. -/
structure Checkbox where
  value : String
  checked : Bool
deriving DecidableEq

/-- The DOM state the form controller reads and mutates: the two text
fields, the checkboxes, the submit button and the status block. -/
structure FormState where
  nameField : String
  contactField : String
  checkboxes : List Checkbox
  btnDisabled : Bool
  btnLabel : String
  statusText : String
  statusClass : String
deriving DecidableEq

/-- `getSelectedServices` of the client script: the values of the checked
checkboxes, in document order. -/
def getSelectedServices (checkboxes : List Checkbox) : List String :=
  (checkboxes.filter (fun cb => cb.checked)).map (fun cb => cb.value)

/-- JSON body the client POSTs to `/api/send`. -/
structure ClientRequest where
  name : String
  contact : String
  services : List String
deriving DecidableEq

/-- Outcome of the client's `fetch` of `/api/send`: a response with its
`ok` flag and the `error` field of its parsed JSON body, a network-level
rejection, or an exception thrown while handling the response body. -/
inductive ClientOutcome where
  | response (ok : Bool) (dataError : Option String)
  | networkError (msg : String)
  | jsonThrow (msg : String)
deriving DecidableEq

/-- `data.error || 'Ошибка'` of the client script: the server-provided
error text, or the generic fallback when it is absent or empty. -/
def errMessageOf : Option String → String
  | none => "Ошибка"
  | some e => if e = "" then "Ошибка" else e

/-- JS `String.prototype.trim` as used on the field values: strips leading
and trailing whitespace (structurally recursive so proofs can evaluate it). -/
def jsTrim (s : String) : String :=
  String.mk
    (((s.toList.dropWhile Char.isWhitespace).reverse.dropWhile
        Char.isWhitespace).reverse)

/-- The form submit listener of the client script, parameterised by the
outcome the `fetch` would have; returns the new DOM state and the list of
network requests issued (empty or a single POST). -/
def submitHandler (st : FormState) (outcome : ClientOutcome) :
    FormState × List ClientRequest :=
  let name := jsTrim st.nameField
  let contact := jsTrim st.contactField
  let services := getSelectedServices st.checkboxes
  if services.isEmpty then
    ({ st with statusText := "Выберите хотя бы одну услугу"
               statusClass := "status error" }, [])
  else
    let st1 := { st with btnDisabled := true, btnLabel := "Отправка..."
                         statusText := "", statusClass := "status" }
    let req : ClientRequest := { name := name, contact := contact, services := services }
    let st2 :=
      match outcome with
      | .response true _ =>
          { st1 with statusText := "Заявка отправлена! Я свяжусь с вами."
                     statusClass := "status success"
                     nameField := ""
                     contactField := ""
                     checkboxes := st1.checkboxes.map (fun (cb : Checkbox) => { cb with checked := false }) }
      | .response false dataError =>
          { st1 with statusText := errMessageOf dataError
                     statusClass := "status error" }
      | .networkError msg =>
          { st1 with statusText := msg, statusClass := "status error" }
      | .jsonThrow msg =>
          { st1 with statusText := msg, statusClass := "status error" }
    ({ st2 with btnDisabled := false, btnLabel := "Отправить заявку" }, [req])

/-- C5: whenever an outbound relay call is attempted the services being
relayed are non-empty, enforced on both sides: the server only reaches the
outbound call with a non-empty `services` array, and every request the
client issues carries a non-empty services list. -/
theorem C5_services_nonempty_invariant :
    (∀ chatId b outcome, (handleSend chatId b outcome).outboundCalls ≠ [] →
        ∃ l, b.services = some l ∧ l ≠ []) ∧
    (∀ st outcome req, req ∈ (submitHandler st outcome).2 → req.services ≠ []) := by
  constructor
  · intro chatId b outcome hne
    by_cases hguard :
        (!truthyStr b.name || !truthyStr b.contact || !truthyLen b.services) = true
    · exact absurd (by simp [handleSend, hguard]) hne
    · have hlen : truthyLen b.services = true := by
        cases hc : truthyLen b.services with
        | true => rfl
        | false => exact absurd (by simp [hc]) hguard
      cases hs : b.services with
      | none => rw [hs] at hlen; exact absurd hlen (by simp [truthyLen])
      | some l =>
        cases l with
        | nil => rw [hs] at hlen; exact absurd hlen (by simp [truthyLen])
        | cons a t => exact ⟨a :: t, rfl, by simp⟩
  · intro st outcome req hmem
    cases hsel : getSelectedServices st.checkboxes with
    | nil => simp [submitHandler, hsel] at hmem
    | cons a t =>
      have hreq : req = { name := jsTrim st.nameField, contact := jsTrim st.contactField
                          services := a :: t } := by
        simpa [submitHandler, hsel] using hmem
      rw [hreq]
      simp

theorem C5_witness :
    (∃ l, (ReqBody.mk (some "Ann") (some "a@x") (some ["Haircut"])).services =
        some l ∧ l ≠ []) ∧
    (ClientRequest.mk "A" "c" ["Haircut"]).services ≠ [] := by
  constructor
  · exact C5_services_nonempty_invariant.1 "cfg"
      ⟨some "Ann", some "a@x", some ["Haircut"]⟩ (.response true) (by decide)
  · exact C5_services_nonempty_invariant.2
      ⟨"A", "c", [⟨"Haircut", true⟩], false, "Отправить заявку", "", ""⟩
      (.response true none) ⟨"A", "c", ["Haircut"]⟩ (by decide)

/-- C6: when no service checkbox is checked the submit listener sets the
validation-error status message with the error style and issues no
network request. -/
theorem C6_empty_selection (st : FormState) (outcome : ClientOutcome)
    (h : getSelectedServices st.checkboxes = []) :
    (submitHandler st outcome).1.statusText = "Выберите хотя бы одну услугу" ∧
    (submitHandler st outcome).1.statusClass = "status error" ∧
    (submitHandler st outcome).2 = [] := by
  refine ⟨?_, ?_, ?_⟩ <;> simp [submitHandler, h]

theorem C6_witness :
    (submitHandler ⟨"Ann", "a@x", [⟨"Haircut", false⟩], false, "Отправить заявку", "", ""⟩
        (.response true none)).1.statusText = "Выберите хотя бы одну услугу" ∧
    (submitHandler ⟨"Ann", "a@x", [⟨"Haircut", false⟩], false, "Отправить заявку", "", ""⟩
        (.response true none)).1.statusClass = "status error" ∧
    (submitHandler ⟨"Ann", "a@x", [⟨"Haircut", false⟩], false, "Отправить заявку", "", ""⟩
        (.response true none)).2 = [] :=
  C6_empty_selection ⟨"Ann", "a@x", [⟨"Haircut", false⟩], false, "Отправить заявку", "", ""⟩
    (.response true none) (by decide)

/-- C7: on every invocation that issues the network call, whatever the
outcome — ok response, non-ok response, network failure, or an exception
while handling the response — the final step re-enables the submit button
and restores its original label. -/
theorem C7_button_restored (st : FormState) (outcome : ClientOutcome)
    (h : getSelectedServices st.checkboxes ≠ []) :
    (submitHandler st outcome).1.btnDisabled = false ∧
    (submitHandler st outcome).1.btnLabel = "Отправить заявку" := by
  cases hsel : getSelectedServices st.checkboxes with
  | nil => exact absurd hsel h
  | cons a t => exact ⟨by simp [submitHandler, hsel], by simp [submitHandler, hsel]⟩

theorem C7_witness :
    (submitHandler ⟨"Ann", "a@x", [⟨"Haircut", true⟩], false, "Отправить заявку", "", ""⟩
        (.jsonThrow "boom")).1.btnDisabled = false ∧
    (submitHandler ⟨"Ann", "a@x", [⟨"Haircut", true⟩], false, "Отправить заявку", "", ""⟩
        (.jsonThrow "boom")).1.btnLabel = "Отправить заявку" :=
  C7_button_restored ⟨"Ann", "a@x", [⟨"Haircut", true⟩], false, "Отправить заявку", "", ""⟩
    (.jsonThrow "boom") (by decide)

/-- C8: the client performs no required-field validation of name or
contact: with at least one service checked it always issues exactly one
POST carrying the trimmed field values, even when they are empty. -/
theorem C8_no_field_validation (st : FormState) (outcome : ClientOutcome)
    (h : getSelectedServices st.checkboxes ≠ []) :
    (submitHandler st outcome).2 =
      [{ name := jsTrim st.nameField, contact := jsTrim st.contactField
         services := getSelectedServices st.checkboxes }] := by
  cases hsel : getSelectedServices st.checkboxes with
  | nil => exact absurd hsel h
  | cons a t => simp [submitHandler, hsel]

theorem C8_witness :
    (submitHandler ⟨"", "  ", [⟨"Haircut", true⟩], false, "Отправить заявку", "", ""⟩
        (.response true none)).2 =
      [{ name := "", contact := "", services := ["Haircut"] }] :=
  (C8_no_field_validation
    ⟨"", "  ", [⟨"Haircut", true⟩], false, "Отправить заявку", "", ""⟩
    (.response true none) (by decide)).trans (by decide)

/-- C9: on the failure paths (non-ok response or network failure) the form
fields and the checkbox states are left unchanged; only the ok-response
path clears the fields and unchecks every checkbox. -/
theorem C9_failure_frame (st : FormState) (h : getSelectedServices st.checkboxes ≠ []) :
    (∀ d, (submitHandler st (.response false d)).1.nameField = st.nameField ∧
        (submitHandler st (.response false d)).1.contactField = st.contactField ∧
        (submitHandler st (.response false d)).1.checkboxes = st.checkboxes) ∧
    (∀ m, (submitHandler st (.networkError m)).1.nameField = st.nameField ∧
        (submitHandler st (.networkError m)).1.contactField = st.contactField ∧
        (submitHandler st (.networkError m)).1.checkboxes = st.checkboxes) ∧
    (∀ d, (submitHandler st (.response true d)).1.nameField = "" ∧
        (submitHandler st (.response true d)).1.contactField = "" ∧
        (submitHandler st (.response true d)).1.checkboxes =
          st.checkboxes.map (fun (cb : Checkbox) => { cb with checked := false })) := by
  cases hsel : getSelectedServices st.checkboxes with
  | nil => exact absurd hsel h
  | cons a t =>
    refine ⟨fun d => ⟨?_, ?_, ?_⟩, fun m => ⟨?_, ?_, ?_⟩, fun d => ⟨?_, ?_, ?_⟩⟩ <;>
      simp [submitHandler, hsel]

theorem C9_witness :
    (submitHandler ⟨"Ann", "a@x", [⟨"Haircut", true⟩], false, "Отправить заявку", "", ""⟩
        (.response false (some "err"))).1.nameField = "Ann" ∧
    (submitHandler ⟨"Ann", "a@x", [⟨"Haircut", true⟩], false, "Отправить заявку", "", ""⟩
        (.response false (some "err"))).1.contactField = "a@x" ∧
    (submitHandler ⟨"Ann", "a@x", [⟨"Haircut", true⟩], false, "Отправить заявку", "", ""⟩
        (.response false (some "err"))).1.checkboxes = [⟨"Haircut", true⟩] :=
  (C9_failure_frame
    ⟨"Ann", "a@x", [⟨"Haircut", true⟩], false, "Отправить заявку", "", ""⟩
    (by decide)).1 (some "err")
